import Mathlib

/-!
Verification of the WhatsApp bridge (`src/lib/whatsapp-bridge.ts`) and the Go
HTTP/WebSocket handler layer of the whatsmeow microservice it talks to.

The TypeScript `WhatsAppBridge` class keeps three string-keyed maps
(`wsConnections`, `instances`, `reconnectTimers`); we embed them as functions
`String → Option α` and embed each method as a pure state transformer.
Asynchronous callbacks (`ws.onmessage`, `ws.onclose`, the reconnect timer
body) are embedded as separate transition functions, so claims about what a
fired callback does can be stated directly.
-/

namespace WABridge

/-- A string-keyed map, mirroring the JS `Map<string, ...>` fields. -/
def SMap (α : Type) : Type := String → Option α

def SMap.empty {α : Type} : SMap α := fun _ => none

/-- JS `Map.prototype.set`. -/
def SMap.set {α : Type} (m : SMap α) (k : String) (v : α) : SMap α :=
  fun x => if x = k then some v else m x

/-- JS `Map.prototype.delete` (dropping the returned boolean). -/
def SMap.del {α : Type} (m : SMap α) (k : String) : SMap α :=
  fun x => if x = k then none else m x

/-- JS `Map.prototype.get`. -/
def SMap.get {α : Type} (m : SMap α) (k : String) : Option α := m k

/-- JS `Map.prototype.has`. -/
def SMap.has {α : Type} (m : SMap α) (k : String) : Bool := (m k).isSome

/-- The `WAInstance` interface: the registry record for one instance.
Optional TS fields become `Option`; the `status` string union stays a
string. -/
structure WAInstance where
  id : String
  status : String
  qrCode : Option String
  qrCodeBase64 : Option String
  waNumber : Option String
  waName : Option String
deriving Repr, DecidableEq

/-- The `WhatsmeowEvent` interface: a raw streamed event
`{ type, instanceId, data, timestamp }`. The JSON `data` object is embedded
as an association list of string fields (the handler only ever reads string
fields out of it). -/
structure WhatsmeowEvent where
  type : String
  instanceId : String
  data : List (String × String)
  timestamp : Nat
deriving Repr, DecidableEq

/-- One `this.emit(kind, payload)` call observed by subscribers. -/
structure EmittedEvent where
  kind : String
  payload : List (String × String)
deriving Repr, DecidableEq

/-- First-match lookup in an association list, the lookup semantics of our
JSON-object encoding. -/
def plookup : List (String × String) → String → Option String
  | [], _ => none
  | (a, b) :: l, k => if a = k then some b else plookup l k

/-- The emitted payload `{ instanceId, ...data }`. In a JS object literal the
spread comes second, so a key occurring in `data` overrides the leading
`instanceId` property; with first-match lookup that object is the list
`data ++ [("instanceId", instanceId)]`. -/
def emitPayload (instanceId : String) (data : List (String × String)) :
    List (String × String) :=
  data ++ [("instanceId", instanceId)]

/-- The whole mutable state of the `WhatsAppBridge` singleton. Sockets and
timers are identified by the order of their creation (`nextSock`,
`nextTimer` counters), standing in for JS object identity. -/
structure BridgeState where
  wsConnections : SMap Nat
  instances : SMap WAInstance
  reconnectTimers : SMap Nat
  nextSock : Nat
  nextTimer : Nat

def initialState : BridgeState :=
  { wsConnections := SMap.empty
    instances := SMap.empty
    reconnectTimers := SMap.empty
    nextSock := 0
    nextTimer := 0 }

/-- The `eventMap` dispatch table in `handleEvent`. -/
def eventMap (t : String) : Option String :=
  if t = "qr" then some "qr"
  else if t = "ready" then some "ready"
  else if t = "connected" then some "authenticated"
  else if t = "disconnected" then some "disconnected"
  else if t = "logged_out" then some "auth_failure"
  else if t = "message" then some "message"
  else if t = "message_ack" then some "message_ack"
  else none

/-- The registry mutation performed by `handleEvent` on the instance record
(the TS code mutates the record in place; we return the new record).
`data.qr as string` on an absent field yields `undefined`, hence the
`Option`-valued lookups. -/
def applyEventToInstance (t : String) (data : List (String × String))
    (inst : WAInstance) : WAInstance :=
  if t = "qr" then
    { inst with
        status := "qr"
        qrCode := plookup data "qr"
        qrCodeBase64 := plookup data "qrBase64" }
  else if t = "ready" then
    { inst with
        status := "connected"
        qrCode := none
        qrCodeBase64 := none
        waNumber := plookup data "number"
        waName := plookup data "name" }
  else if t = "disconnected" ∨ t = "logged_out" then
    { inst with status := "disconnected" }
  else inst

/-- `handleEvent`: updates the registry record when the instance is known,
then emits exactly one event under the mapped name
(`eventMap[type] || type`) with payload `{ instanceId, ...data }`. -/
def handleEvent (s : BridgeState) (ev : WhatsmeowEvent) :
    BridgeState × List EmittedEvent :=
  let instances :=
    match s.instances.get ev.instanceId with
    | some inst =>
        s.instances.set ev.instanceId (applyEventToInstance ev.type ev.data inst)
    | none => s.instances
  let mappedEvent := (eventMap ev.type).getD ev.type
  ({ s with instances := instances },
   [{ kind := mappedEvent, payload := emitPayload ev.instanceId ev.data }])

/-- `disconnectWebSocket`: close and drop the socket if present, clear the
pending reconnect timer if present. -/
def disconnectWebSocket (s : BridgeState) (instanceId : String) : BridgeState :=
  { s with
      wsConnections := s.wsConnections.del instanceId
      reconnectTimers := s.reconnectTimers.del instanceId }

/-- `connectWebSocket`: first tears down any existing socket/timer via
`disconnectWebSocket`, then opens a fresh socket (fresh identity from
`nextSock`) and records it. -/
def connectWebSocket (s : BridgeState) (instanceId : String) : BridgeState :=
  let s1 := disconnectWebSocket s instanceId
  { s1 with
      wsConnections := s1.wsConnections.set instanceId s1.nextSock
      nextSock := s1.nextSock + 1 }

/-- The `ws.onmessage` callback of the socket identified by `sock`: it
parses the frame and calls `handleEvent` unconditionally — the callback
never consults which socket delivered the frame, nor any generation
counter. -/
def onMessage (s : BridgeState) (sock : Nat) (ev : WhatsmeowEvent) :
    BridgeState × List EmittedEvent :=
  handleEvent s ev

/-- The `ws.onclose` callback: drops the `wsConnections` entry for the
instance id and schedules a reconnect timer (fresh identity from
`nextTimer`). -/
def onCloseHandler (s : BridgeState) (instanceId : String) : BridgeState :=
  { s with
      wsConnections := s.wsConnections.del instanceId
      reconnectTimers := s.reconnectTimers.set instanceId s.nextTimer
      nextTimer := s.nextTimer + 1 }

/-- The body of the reconnect timer scheduled by `onclose`:
`if (this.instances.has(instanceId)) this.connectWebSocket(instanceId)`. -/
def retryFire (s : BridgeState) (instanceId : String) : BridgeState :=
  if s.instances.has instanceId then connectWebSocket s instanceId else s

/-- The fields of the remote `/instance/:id/connect` response that
`connect` reads (`data.status`, `data.qrCode`, `data.waNumber`). -/
structure ConnectResp where
  status : String
  qrCode : Option String
  waNumber : Option String
deriving Repr, DecidableEq

/-- `connect` after its RPC returned successfully: build a fresh
`WAInstance` from the response, store it (replacing any previous record for
the id), and open the event socket. -/
def connectStep (s : BridgeState) (instanceId : String) (resp : ConnectResp) :
    BridgeState :=
  let inst : WAInstance :=
    { id := instanceId
      status := resp.status
      qrCode := none
      qrCodeBase64 := resp.qrCode
      waNumber := resp.waNumber
      waName := none }
  connectWebSocket { s with instances := s.instances.set instanceId inst } instanceId

/-- `disconnect` after its RPC returned successfully: set the status of the
record to disconnected when present (nothing else changes — in particular
the qr fields are untouched). -/
def disconnectStep (s : BridgeState) (instanceId : String) : BridgeState :=
  match s.instances.get instanceId with
  | some inst =>
      { s with
          instances := s.instances.set instanceId { inst with status := "disconnected" } }
  | none => s

/-- `logout` after its RPC returned successfully: tear down the socket and
timer, then delete the registry record. -/
def logoutStep (s : BridgeState) (instanceId : String) : BridgeState :=
  let s1 := disconnectWebSocket s instanceId
  { s1 with instances := s1.instances.del instanceId }

/-- `logout` including its RPC: the call first awaits the remote
`/instance/:id/logout` request (whose outcome is the `rpc` parameter — the
remote service is outside this repository's bridge file) and applies the
local teardown only when it succeeded; an RPC failure propagates as a
thrown error with no local change. -/
def logoutCall (rpc : Except String Unit) (s : BridgeState) (instanceId : String) :
    Except String BridgeState :=
  match rpc with
  | Except.error e => Except.error e
  | Except.ok _ => Except.ok (logoutStep s instanceId)

/-- `getInstance`. -/
def getInstance (s : BridgeState) (instanceId : String) : Option WAInstance :=
  s.instances.get instanceId

/-- `getClient` (returns the instance for compatibility). -/
def getClient (s : BridgeState) (instanceId : String) : Option WAInstance :=
  s.instances.get instanceId

/-- `getStatus`: `instance?.status ?? 'not_found'`. -/
def getStatus (s : BridgeState) (instanceId : String) : String :=
  match s.instances.get instanceId with
  | some inst => inst.status
  | none => "not_found"

/-- `getQRCode`: `{ qr: instance?.qrCode, qrBase64: instance?.qrCodeBase64 }`. -/
def getQRCode (s : BridgeState) (instanceId : String) :
    Option String × Option String :=
  ((s.instances.get instanceId).bind WAInstance.qrCode,
   (s.instances.get instanceId).bind WAInstance.qrCodeBase64)

/-- The registry states reachable through the event handler, the socket
callbacks and the command methods of the bridge. -/
inductive Reachable : BridgeState → Prop where
  | init : Reachable initialState
  | connect {s : BridgeState} (h : Reachable s) (instanceId : String)
      (resp : ConnectResp) : Reachable (connectStep s instanceId resp)
  | disconnect {s : BridgeState} (h : Reachable s) (instanceId : String) :
      Reachable (disconnectStep s instanceId)
  | logout {s : BridgeState} (h : Reachable s) (instanceId : String) :
      Reachable (logoutStep s instanceId)
  | handle {s : BridgeState} (h : Reachable s) (ev : WhatsmeowEvent) :
      Reachable (handleEvent s ev).1
  | wsClose {s : BridgeState} (h : Reachable s) (instanceId : String) :
      Reachable (onCloseHandler s instanceId)
  | retry {s : BridgeState} (h : Reachable s) (instanceId : String) :
      Reachable (retryFire s instanceId)

/-- The uniform response envelope `{ success, error?, data? }` decoded by
`request`. -/
structure RespEnvelope where
  success : Bool
  error : Option String
  data : Option (List (String × String))
deriving Repr, DecidableEq

/-- What `fetch(url).then(r => r.json())` can amount to inside `request`: a
decoded envelope, or a thrown transport/parse error (timeout, connection
refused, malformed body). -/
inductive FetchOutcome where
  | resp (env : RespEnvelope)
  | transportFail (msg : String)
deriving Repr, DecidableEq

/-- The message of the error thrown on `success: false`:
`data.error || 'Request failed'`. JS `||` also falls through when the
`error` field holds the empty string. -/
def envelopeErrorMessage (e : Option String) : String :=
  match e with
  | some msg => if msg = "" then "Request failed" else msg
  | none => "Request failed"

/-- `request`: awaits the fetch, and either rethrows the transport error or
inspects the envelope — `success: false` becomes a thrown error carrying
the envelope's `error` string, `success: true` yields `data`. (The `catch`
block only logs before rethrowing, so both failure shapes surface to the
caller the same way: as the thrown error.) -/
def request (f : FetchOutcome) : Except String (Option (List (String × String))) :=
  match f with
  | FetchOutcome.transportFail msg => Except.error msg
  | FetchOutcome.resp env =>
      if env.success then Except.ok env.data
      else Except.error (envelopeErrorMessage env.error)

/-- What one of the stub methods at the bottom of the bridge class does
when called. -/
inductive StubBehavior where
  | throws (msg : String)
  | returnsEmptyObject
  | returnsEmptyList
  | returnsUndefined
  | returnsTrue
  | returnsNull
deriving Repr, DecidableEq

/-- A stub fails fast exactly when it throws. -/
def StubBehavior.failsFast : StubBehavior → Bool
  | StubBehavior.throws _ => true
  | _ => false

def sendContact : StubBehavior := StubBehavior.returnsEmptyObject
def getLabels : StubBehavior := StubBehavior.returnsEmptyList
def addLabelToChat : StubBehavior := StubBehavior.returnsUndefined
def removeLabelFromChat : StubBehavior := StubBehavior.returnsUndefined
def setProfileName : StubBehavior := StubBehavior.returnsUndefined
def setStatus : StubBehavior := StubBehavior.returnsUndefined
def setProfilePicture : StubBehavior := StubBehavior.returnsUndefined
def sendPoll : StubBehavior := StubBehavior.throws "Not implemented"
def editMessage : StubBehavior := StubBehavior.throws "Not implemented"
def reactToMessage : StubBehavior := StubBehavior.throws "Not implemented"
def deleteMessage : StubBehavior := StubBehavior.throws "Not implemented"
def downloadMedia : StubBehavior := StubBehavior.throws "Not implemented"
def getContacts : StubBehavior := StubBehavior.returnsEmptyList
def getContactById : StubBehavior := StubBehavior.throws "Not implemented"
def isRegisteredUser : StubBehavior := StubBehavior.returnsTrue
def blockContact : StubBehavior := StubBehavior.throws "Not implemented"
def unblockContact : StubBehavior := StubBehavior.throws "Not implemented"
def getBlockedContacts : StubBehavior := StubBehavior.returnsEmptyList
def getChats : StubBehavior := StubBehavior.returnsEmptyList
def getChatById : StubBehavior := StubBehavior.throws "Not implemented"
def archiveChat : StubBehavior := StubBehavior.throws "Not implemented"
def unarchiveChat : StubBehavior := StubBehavior.throws "Not implemented"
def pinChat : StubBehavior := StubBehavior.throws "Not implemented"
def unpinChat : StubBehavior := StubBehavior.throws "Not implemented"
def muteChat : StubBehavior := StubBehavior.throws "Not implemented"
def unmuteChat : StubBehavior := StubBehavior.throws "Not implemented"
def deleteChat : StubBehavior := StubBehavior.throws "Not implemented"
def searchMessages : StubBehavior := StubBehavior.returnsEmptyList
def getGroups : StubBehavior := StubBehavior.returnsEmptyList
def createGroup : StubBehavior := StubBehavior.throws "Not implemented"
def getGroupInfo : StubBehavior := StubBehavior.throws "Not implemented"
def addParticipants : StubBehavior := StubBehavior.throws "Not implemented"
def removeParticipants : StubBehavior := StubBehavior.throws "Not implemented"
def promoteParticipants : StubBehavior := StubBehavior.throws "Not implemented"
def demoteParticipants : StubBehavior := StubBehavior.throws "Not implemented"
def leaveGroup : StubBehavior := StubBehavior.throws "Not implemented"
def getInviteCode : StubBehavior := StubBehavior.throws "Not implemented"
def getProfilePicUrl : StubBehavior := StubBehavior.returnsNull
def setGroupSubject : StubBehavior := StubBehavior.throws "Not implemented"
def setGroupDescription : StubBehavior := StubBehavior.throws "Not implemented"
def revokeInviteCode : StubBehavior := StubBehavior.throws "Not implemented"
def joinGroupByInviteCode : StubBehavior := StubBehavior.throws "Not implemented"
def getChatMessages : StubBehavior := StubBehavior.returnsEmptyList

/-- Every public method of the bridge whose capability the remote service
does not back, with its behavior, in source order (the stub block starting
at `sendContact` and the one-liner block from `sendPoll` on).
`sendPresence`, `sendText`, `sendMedia`, `sendLocation` are implemented and
excluded; `loadInstanceSettings`/`updateInstanceSettings`/`reconnectAll`
are deliberate no-ops about locally-managed settings, not remote
capabilities. -/
def unsupportedMethods : List (String × StubBehavior) :=
  [("sendContact", sendContact), ("getLabels", getLabels),
   ("addLabelToChat", addLabelToChat), ("removeLabelFromChat", removeLabelFromChat),
   ("setProfileName", setProfileName), ("setStatus", setStatus),
   ("setProfilePicture", setProfilePicture), ("sendPoll", sendPoll),
   ("editMessage", editMessage), ("reactToMessage", reactToMessage),
   ("deleteMessage", deleteMessage), ("downloadMedia", downloadMedia),
   ("getContacts", getContacts), ("getContactById", getContactById),
   ("isRegisteredUser", isRegisteredUser), ("blockContact", blockContact),
   ("unblockContact", unblockContact), ("getBlockedContacts", getBlockedContacts),
   ("getChats", getChats), ("getChatById", getChatById),
   ("archiveChat", archiveChat), ("unarchiveChat", unarchiveChat),
   ("pinChat", pinChat), ("unpinChat", unpinChat),
   ("muteChat", muteChat), ("unmuteChat", unmuteChat),
   ("deleteChat", deleteChat), ("searchMessages", searchMessages),
   ("getGroups", getGroups), ("createGroup", createGroup),
   ("getGroupInfo", getGroupInfo), ("addParticipants", addParticipants),
   ("removeParticipants", removeParticipants),
   ("promoteParticipants", promoteParticipants),
   ("demoteParticipants", demoteParticipants), ("leaveGroup", leaveGroup),
   ("getInviteCode", getInviteCode), ("getProfilePicUrl", getProfilePicUrl),
   ("setGroupSubject", setGroupSubject),
   ("setGroupDescription", setGroupDescription),
   ("revokeInviteCode", revokeInviteCode),
   ("joinGroupByInviteCode", joinGroupByInviteCode),
   ("getChatMessages", getChatMessages)]

/-- The digit test shared by both normalizers: Go compares
`c >= '0' && c <= '9'`, and the JS regex `/\D/g` removes exactly the
complement of `[0-9]`. -/
def isAsciiDigit (c : Char) : Bool := decide ('0' ≤ c) && decide (c ≤ '9')

/-- Go `cleanPhoneNumber`: builds the result by appending each digit of the
input to an initially empty string. -/
def cleanPhoneNumber (number : String) : String :=
  number.toList.foldl (fun acc c => if isAsciiDigit c then acc.push c else acc) ""

/-- TS `to.replace(/\D/g, '')`: deletes every non-digit character. -/
def replaceNonDigits (dest : String) : String :=
  String.mk (dest.toList.filter isAsciiDigit)

/-- The JSON body `sendText` posts to `/message/text`; `toNumber` embeds
the JSON field named `to` (a reserved word here). -/
structure SendTextBody where
  instanceId : String
  toNumber : String
  text : String
deriving Repr, DecidableEq

def sendTextBody (instanceId dest text : String) : SendTextBody :=
  { instanceId := instanceId, toNumber := replaceNonDigits dest, text := text }

/-- The JSON body `sendMedia` posts to `/message/media`. -/
structure SendMediaBody where
  instanceId : String
  toNumber : String
  mediaUrl : String
  caption : Option String
deriving Repr, DecidableEq

def sendMediaBody (instanceId dest mediaUrl : String) (caption : Option String) :
    SendMediaBody :=
  { instanceId := instanceId, toNumber := replaceNonDigits dest,
    mediaUrl := mediaUrl, caption := caption }

/-- The JSON body `sendLocation` posts to `/message/location`. Coordinates
are numbers whose value the bridge passes through untouched; only the
destination is transformed, so their representation is irrelevant here. -/
structure SendLocationBody where
  instanceId : String
  toNumber : String
  latitude : Float
  longitude : Float
  description : Option String
deriving Repr

def sendLocationBody (instanceId dest : String) (latitude longitude : Float)
    (description : Option String) : SendLocationBody :=
  { instanceId := instanceId, toNumber := replaceNonDigits dest,
    latitude := latitude, longitude := longitude, description := description }

/-- The JSON body `sendPresence` posts to `/message/presence`. -/
structure SendPresenceBody where
  instanceId : String
  toNumber : String
  presence : String
deriving Repr, DecidableEq

def sendPresenceBody (instanceId dest presence : String) : SendPresenceBody :=
  { instanceId := instanceId, toNumber := replaceNonDigits dest,
    presence := presence }

/-!
Concrete sample data used to evaluate the model on explicit inputs.
-/

def sampleResp : ConnectResp :=
  { status := "connecting", qrCode := none, waNumber := none }

def sampleQrEvent : WhatsmeowEvent :=
  { type := "qr", instanceId := "acct1",
    data := [("qr", "QRDATA"), ("qrBase64", "QRIMG")], timestamp := 1 }

def sampleDiscEvent : WhatsmeowEvent :=
  { type := "disconnected", instanceId := "acct1", data := [], timestamp := 2 }

def sampleLoggedOutEvent : WhatsmeowEvent :=
  { type := "logged_out", instanceId := "acct1", data := [], timestamp := 3 }

def plainMsgEvent : WhatsmeowEvent :=
  { type := "message", instanceId := "acct1", data := [], timestamp := 5 }

def staleMsgEvent : WhatsmeowEvent :=
  { type := "message", instanceId := "acct1", data := [("body", "hi")],
    timestamp := 9 }

/-- The state after `connect("acct1")` returned `{ status: "connecting" }`. -/
def stateConnecting : BridgeState := connectStep initialState "acct1" sampleResp

/-- ... then the stream delivered a `qr` event. -/
def stateWithQr : BridgeState := (handleEvent stateConnecting sampleQrEvent).1

/-- ... then the stream delivered a `disconnected` event. -/
def stateQrThenDisc : BridgeState := (handleEvent stateWithQr sampleDiscEvent).1

/-- ... alternatively, after the first socket closed and the scheduled retry
fired, superseding socket 0 with socket 1. -/
def stateReopened : BridgeState :=
  retryFire (onCloseHandler stateConnecting "acct1") "acct1"

/-- The registry record held in `stateConnecting`. -/
def instConnecting : WAInstance :=
  { id := "acct1", status := "connecting", qrCode := none, qrCodeBase64 := none,
    waNumber := none, waName := none }

/-- The registry record held in `stateWithQr`. -/
def instWithQr : WAInstance :=
  { id := "acct1", status := "qr", qrCode := some "QRDATA",
    qrCodeBase64 := some "QRIMG", waNumber := none, waName := none }

/-- The registry record held in `stateQrThenDisc`: disconnected, yet still
carrying the pairing code. -/
def instQrDisc : WAInstance :=
  { id := "acct1", status := "disconnected", qrCode := some "QRDATA",
    qrCodeBase64 := some "QRIMG", waNumber := none, waName := none }

/-- The single event `handleEvent` emits for a raw event: the mapped kind
with the spread payload. `handleEvent s ev` publishes `[normalizedEmit ev]`
definitionally, for every state `s`. -/
def normalizedEmit (ev : WhatsmeowEvent) : EmittedEvent :=
  { kind := (eventMap ev.type).getD ev.type
    payload := emitPayload ev.instanceId ev.data }

/-!
Helper lemmas.
-/

theorem SMap.get_set_self {α : Type} (m : SMap α) (k : String) (v : α) :
    (m.set k v).get k = some v := by
  simp [SMap.set, SMap.get]

theorem SMap.get_del_self {α : Type} (m : SMap α) (k : String) :
    (m.del k).get k = none := by
  simp [SMap.del, SMap.get]

theorem SMap.del_del {α : Type} (m : SMap α) (k : String) :
    (m.del k).del k = m.del k := by
  funext x
  simp only [SMap.del]
  split <;> rfl

/-- Appending digits one by one (the Go loop) is filtering. -/
theorem foldClean_eq_filter (l : List Char) (r : String) :
    l.foldl (fun acc c => if isAsciiDigit c then acc.push c else acc) r
      = String.mk (r.data ++ l.filter isAsciiDigit) := by
  induction l generalizing r with
  | nil => simp
  | cons c l ih =>
    simp only [List.foldl_cons, List.filter_cons]
    cases h : isAsciiDigit c
    · simp [ih r]
    · simp [ih (r.push c), List.append_assoc]

/-- The Go normalizer and the TS normalizer agree. -/
theorem cleanPhoneNumber_eq_replaceNonDigits (s : String) :
    cleanPhoneNumber s = replaceNonDigits s := by
  unfold cleanPhoneNumber replaceNonDigits
  rw [foldClean_eq_filter]
  rfl

/-- The digit test of both normalizers is the standard decimal-digit test. -/
theorem isAsciiDigit_eq_isDigit (c : Char) : isAsciiDigit c = c.isDigit := rfl

/-- In the emitted `{ instanceId, ...data }` payload, the `instanceId` key is
always present; the spread `data` wins when it carries its own entry. -/
theorem plookup_emitPayload_instanceId (l : List (String × String)) (idv : String) :
    plookup (emitPayload idv l) "instanceId"
      = some ((plookup l "instanceId").getD idv) := by
  induction l with
  | nil => rfl
  | cons p l ih =>
    obtain ⟨a, b⟩ := p
    by_cases h : a = "instanceId" <;> simp [emitPayload, plookup, h] at ih ⊢ <;>
      exact ih

/-- Any key other than `instanceId` reaches the emitted payload untouched
from the raw `data` object. -/
theorem plookup_emitPayload_other (l : List (String × String)) (idv k : String)
    (h : k ≠ "instanceId") :
    plookup (emitPayload idv l) k = plookup l k := by
  induction l with
  | nil => simp [emitPayload, plookup, Ne.symm h]
  | cons p l ih =>
    obtain ⟨a, b⟩ := p
    by_cases ha : a = k <;> simp [emitPayload, plookup, ha] at ih ⊢ <;> exact ih

/-!
Claims.
-/

/-- C1, counterexample: it is false that every method for a capability the
remote service does not back fails fast — `getContacts` silently returns an
empty list, `isRegisteredUser` fabricates `true`, and `sendContact` returns
an empty object. -/
theorem stub_failfast_counterexample :
    (¬ ∀ p ∈ unsupportedMethods, p.2.failsFast = true)
    ∧ getContacts = StubBehavior.returnsEmptyList
    ∧ isRegisteredUser = StubBehavior.returnsTrue
    ∧ sendContact = StubBehavior.returnsEmptyObject := by
  refine ⟨?_, rfl, rfl, rfl⟩
  decide

/-- C1, amended: the stub surface is inconsistent. Exactly fifteen of the
unsupported methods silently return an empty or fabricated value instead of
failing, and every one that does fail fast throws a plain
`Error('Not implemented')` rather than a distinct error type. -/
theorem stub_surface_partition :
    ((unsupportedMethods.filter fun p => ! p.2.failsFast).map Prod.fst =
      ["sendContact", "getLabels", "addLabelToChat", "removeLabelFromChat",
       "setProfileName", "setStatus", "setProfilePicture", "getContacts",
       "isRegisteredUser", "getBlockedContacts", "getChats", "searchMessages",
       "getGroups", "getProfilePicUrl", "getChatMessages"])
    ∧ (∀ p ∈ unsupportedMethods, p.2.failsFast = true →
        p.2 = StubBehavior.throws "Not implemented") := by
  constructor
  · decide
  · decide

/-- C1, witness for the amended claim at a concrete method: `sendPoll` is
one of the methods that does throw. -/
theorem stub_surface_partition_witness :
    sendPoll = StubBehavior.throws "Not implemented" :=
  stub_surface_partition.2 ("sendPoll", sendPoll) (by decide) rfl

/-- C2, counterexample: a `logged_out` raw event produces exactly one
emission, `auth_failure` — the claimed accompanying `disconnected` emission
does not happen. -/
theorem logged_out_single_emit_counterexample :
    ((handleEvent initialState sampleLoggedOutEvent).2.map EmittedEvent.kind
        = ["auth_failure"])
    ∧ ¬ (∀ (s : BridgeState) (ev : WhatsmeowEvent), ev.type = "logged_out" →
          "disconnected" ∈ ((handleEvent s ev).2.map EmittedEvent.kind)
          ∧ "auth_failure" ∈ ((handleEvent s ev).2.map EmittedEvent.kind)) := by
  refine ⟨by decide, ?_⟩
  intro h
  have h2 := (h initialState sampleLoggedOutEvent rfl).1
  revert h2
  decide

/-- C2, amended: for a registered instance, `logged_out` sets the status to
disconnected and emits exactly one event, `auth_failure`; `disconnected`
sets the status to disconnected and emits exactly one event,
`disconnected`. -/
theorem loggedOut_vs_disconnected_emissions (s : BridgeState)
    (ev : WhatsmeowEvent) (inst : WAInstance)
    (hget : s.instances.get ev.instanceId = some inst) :
    (ev.type = "logged_out" →
        (handleEvent s ev).2.map EmittedEvent.kind = ["auth_failure"]
        ∧ (handleEvent s ev).1.instances.get ev.instanceId
            = some { inst with status := "disconnected" })
    ∧ (ev.type = "disconnected" →
        (handleEvent s ev).2.map EmittedEvent.kind = ["disconnected"]
        ∧ (handleEvent s ev).1.instances.get ev.instanceId
            = some { inst with status := "disconnected" }) := by
  obtain ⟨t, iid, d, ts⟩ := ev
  dsimp only at hget ⊢
  constructor
  all_goals intro ht
  all_goals subst ht
  all_goals exact ⟨by simp [handleEvent, eventMap],
    by simp [handleEvent, hget, applyEventToInstance, SMap.get_set_self]⟩

/-- C2, witness: the amended claim evaluated on a registered instance
receiving `logged_out`. -/
theorem loggedOut_vs_disconnected_emissions_witness :
    (handleEvent stateConnecting sampleLoggedOutEvent).2.map EmittedEvent.kind
      = ["auth_failure"] :=
  ((loggedOut_vs_disconnected_emissions stateConnecting sampleLoggedOutEvent
      instConnecting (by decide)).1 rfl).1

/-- C3, counterexample: the registry state reached by
connect → `qr` event → `disconnected` event holds a record with status
disconnected that still carries both pairing-code fields, so the claimed
invariant fails on a reachable state. -/
theorem qr_persists_on_disconnect_counterexample :
    (stateQrThenDisc.instances.get "acct1" = some instQrDisc)
    ∧ ¬ (∀ s, Reachable s → ∀ id inst, s.instances.get id = some inst →
          (inst.status = "connected" ∨ inst.status = "disconnected") →
          inst.qrCode = none ∧ inst.qrCodeBase64 = none) := by
  refine ⟨by decide, ?_⟩
  intro hclaim
  have hr : Reachable stateQrThenDisc :=
    Reachable.handle
      (Reachable.handle
        (Reachable.connect Reachable.init "acct1" sampleResp) sampleQrEvent)
      sampleDiscEvent
  have h2 := hclaim stateQrThenDisc hr "acct1" instQrDisc (by decide)
    (Or.inr rfl)
  exact absurd h2.1 (by decide)

/-- C3, amended: the pairing-code fields are cleared at the step where the
status becomes connected (the `ready` event), but transitions to
disconnected — the `disconnected`/`logged_out` events and the `disconnect`
command — retain whatever pairing fields the record held. -/
theorem qr_clearing_behavior (t : String) (data : List (String × String))
    (inst : WAInstance) (s : BridgeState) (instanceId : String)
    (ht : t = "disconnected" ∨ t = "logged_out") :
    (applyEventToInstance "ready" data inst).status = "connected"
    ∧ (applyEventToInstance "ready" data inst).qrCode = none
    ∧ (applyEventToInstance "ready" data inst).qrCodeBase64 = none
    ∧ (applyEventToInstance t data inst).status = "disconnected"
    ∧ (applyEventToInstance t data inst).qrCode = inst.qrCode
    ∧ (applyEventToInstance t data inst).qrCodeBase64 = inst.qrCodeBase64
    ∧ (s.instances.get instanceId = some inst →
        (disconnectStep s instanceId).instances.get instanceId
          = some { inst with status := "disconnected" }) := by
  have hq : ¬ (t = "qr") := by rcases ht with h | h <;> subst h <;> decide
  have hr : ¬ (t = "ready") := by rcases ht with h | h <;> subst h <;> decide
  refine ⟨by simp [applyEventToInstance], by simp [applyEventToInstance],
    by simp [applyEventToInstance], ?_, ?_, ?_, ?_⟩
  · simp [applyEventToInstance, hq, hr, ht]
  · simp [applyEventToInstance, hq, hr, ht]
  · simp [applyEventToInstance, hq, hr, ht]
  · intro hg
    simp [disconnectStep, hg, SMap.get_set_self]

/-- C3, witness for the amended claim: a `disconnected` event applied to the
record that holds a pairing code keeps that pairing code. -/
theorem qr_clearing_behavior_witness :
    (applyEventToInstance "disconnected" [] instWithQr).qrCode = some "QRDATA" :=
  (qr_clearing_behavior "disconnected" [] instWithQr initialState "acct1"
    (Or.inl rfl)).2.2.2.2.1

/-- C4, counterexample: after the retry fired, socket 1 is the live
connection for "acct1" and socket 0 is superseded — yet an event delivered
by socket 0 is not discarded: the claimed stale-generation filtering does
not exist. -/
theorem stale_socket_events_handled_counterexample :
    (stateReopened.wsConnections.get "acct1" = some 1)
    ∧ ¬ (∀ (s : BridgeState) (sock : Nat) (ev : WhatsmeowEvent),
          s.wsConnections.get ev.instanceId ≠ some sock →
          (onMessage s sock ev).2 = []) := by
  refine ⟨by decide, ?_⟩
  intro h
  have h2 := h stateReopened 0 staleMsgEvent (by decide)
  revert h2
  decide

/-- C4, amended: there is no generation counter. The message callback hands
every delivered event to `handleEvent` unconditionally — its behavior is
identical whichever socket delivered the frame, and it always publishes
exactly one event; superseding happens only in that `connectWebSocket`
closes the previous socket and records the fresh one. -/
theorem onMessage_no_staleness_check (s : BridgeState) (sock : Nat)
    (ev : WhatsmeowEvent) :
    onMessage s sock ev = handleEvent s ev
    ∧ (onMessage s sock ev).2.length = 1
    ∧ (connectWebSocket s ev.instanceId).wsConnections.get ev.instanceId
        = some s.nextSock := by
  refine ⟨rfl, rfl, ?_⟩
  simp [connectWebSocket, disconnectWebSocket, SMap.get_set_self]

/-- C5, counterexample: the event published for a raw `message` event with
an empty `data` object carries no `timestamp` key at all (even though the
raw frame had `timestamp: 5`) — no timestamp is assigned at handling
time. -/
theorem no_normalizer_timestamp_counterexample :
    ((handleEvent initialState plainMsgEvent).2
        = [{ kind := "message", payload := [("instanceId", "acct1")] }])
    ∧ ¬ (∀ (s : BridgeState) (ev : WhatsmeowEvent) (e : EmittedEvent),
          e ∈ (handleEvent s ev).2 →
          (plookup e.payload "timestamp").isSome = true) := by
  refine ⟨by decide, ?_⟩
  intro h
  have h2 := h initialState plainMsgEvent
    { kind := "message", payload := [("instanceId", "acct1")] } (by decide)
  revert h2
  decide

/-- C5, amended: every raw event is published exactly once, and its payload
carries an `instanceId` key (the handler's id, unless the raw `data` object
itself has an `instanceId` entry, which the spread lets win); a `timestamp`
key is present only when the raw `data` object carried one — the handler
assigns none of its own. -/
theorem emitted_payload_shape (s : BridgeState) (ev : WhatsmeowEvent) :
    (handleEvent s ev).2.length = 1
    ∧ ∀ e ∈ (handleEvent s ev).2,
        plookup e.payload "instanceId"
          = some ((plookup ev.data "instanceId").getD ev.instanceId)
        ∧ plookup e.payload "timestamp" = plookup ev.data "timestamp" := by
  refine ⟨rfl, ?_⟩
  intro e he
  have he2 : e ∈ [normalizedEmit ev] := he
  have heq : e = normalizedEmit ev := List.mem_singleton.mp he2
  subst heq
  exact ⟨plookup_emitPayload_instanceId _ _,
    plookup_emitPayload_other _ _ _ (by decide)⟩

/-- C5, witness for the amended claim at the concrete `message` event: the
payload's `instanceId` is present and no `timestamp` key exists. -/
theorem emitted_payload_shape_witness :
    plookup (emitPayload "acct1" []) "instanceId" = some "acct1"
    ∧ plookup (emitPayload "acct1" []) "timestamp" = none := by
  have h := (emitted_payload_shape initialState plainMsgEvent).2
    { kind := "message", payload := emitPayload "acct1" [] } (by decide)
  exact ⟨h.1, h.2⟩

/-- C6: every send method posts the destination normalized to exactly the
subsequence of decimal digits of the input, in their original order (the
Go handler's `cleanPhoneNumber` computes the same string), and
`"+1 (555) 123-4567"` normalizes to `"15551234567"`. No further check is
applied: whatever the filter leaves is the posted destination. -/
theorem send_methods_normalize_destination (i dest text mediaUrl presence :
    String) (caption : Option String) (lat lon : Float)
    (desc : Option String) :
    (sendTextBody i dest text).toNumber
        = String.mk (dest.toList.filter isAsciiDigit)
    ∧ (sendMediaBody i dest mediaUrl caption).toNumber
        = String.mk (dest.toList.filter isAsciiDigit)
    ∧ (sendLocationBody i dest lat lon desc).toNumber
        = String.mk (dest.toList.filter isAsciiDigit)
    ∧ (sendPresenceBody i dest presence).toNumber
        = String.mk (dest.toList.filter isAsciiDigit)
    ∧ cleanPhoneNumber dest = String.mk (dest.toList.filter isAsciiDigit)
    ∧ List.Sublist (dest.toList.filter isAsciiDigit) dest.toList
    ∧ (∀ c ∈ dest.toList.filter isAsciiDigit, c.isDigit = true)
    ∧ (sendTextBody "acct1" "+1 (555) 123-4567" "hi").toNumber
        = "15551234567" := by
  refine ⟨rfl, rfl, rfl, rfl, cleanPhoneNumber_eq_replaceNonDigits dest,
    List.filter_sublist _, ?_, by decide⟩
  intro c hc
  exact (List.mem_filter.mp hc).2

/-- C6, witness: the spec's own example destination. -/
theorem send_methods_normalize_destination_witness :
    (sendTextBody "acct1" "+1 (555) 123-4567" "hi").toNumber = "15551234567" :=
  (send_methods_normalize_destination "acct1" "+1 (555) 123-4567" "hi" "u"
    "composing" none 0 0 none).2.2.2.2.2.2.2

/-- C7: a `success: false` envelope carrying an error string makes the call
fail with exactly that string, and a transport failure (timeout, refused
connection, malformed body) surfaces to the caller in the identical shape —
the thrown-error case of `request`. -/
theorem upstream_error_surfacing (env : RespEnvelope) (e msg : String)
    (hs : env.success = false) (he : env.error = some e) (hne : e ≠ "") :
    request (FetchOutcome.resp env) = Except.error e
    ∧ request (FetchOutcome.transportFail msg) = Except.error msg := by
  refine ⟨?_, rfl⟩
  simp [request, hs, envelopeErrorMessage, he, hne]

/-- C7, witness: the spec's example envelope `{success:false,error:"rate
limited"}` surfaces as the error "rate limited", and a refused connection
surfaces the same way. -/
theorem upstream_error_surfacing_witness :
    request (FetchOutcome.resp
        { success := false, error := some "rate limited", data := none })
      = Except.error "rate limited"
    ∧ request (FetchOutcome.transportFail "connection refused")
      = Except.error "connection refused" :=
  upstream_error_surfacing _ "rate limited" "connection refused" rfl rfl
    (by decide)

/-- C8: the fired reconnect timer checks registry membership first — for an
id no longer in the registry it changes nothing (in particular it opens no
socket), and only for a registered id does it reopen via
`connectWebSocket`. -/
theorem retry_checks_registry (s : BridgeState) (instanceId : String) :
    (s.instances.get instanceId = none → retryFire s instanceId = s)
    ∧ (s.instances.get instanceId ≠ none →
        retryFire s instanceId = connectWebSocket s instanceId) := by
  constructor
  · intro h
    simp only [SMap.get] at h
    simp [retryFire, SMap.has, h]
  · intro h
    simp only [SMap.get] at h
    simp [retryFire, SMap.has, Option.isSome_iff_ne_none, h]

/-- C8, witness: a retry firing for an id absent from the registry leaves
the state untouched. -/
theorem retry_checks_registry_witness :
    retryFire initialState "ghost" = initialState :=
  (retry_checks_registry initialState "ghost").1 rfl

/-- C9: `disconnectWebSocket` (teardown) is idempotent on the state, and so
is the local effect of `logout`; a second `logout` whose RPC succeeds
completes without error in the same end state, which holds no registry
record, no socket, and no pending retry timer for the id. -/
theorem teardown_and_logout_idempotent (s : BridgeState) (instanceId : String)
    (rpc : Except String Unit) (h : rpc = Except.ok ()) :
    disconnectWebSocket (disconnectWebSocket s instanceId) instanceId
      = disconnectWebSocket s instanceId
    ∧ logoutStep (logoutStep s instanceId) instanceId = logoutStep s instanceId
    ∧ logoutCall rpc (logoutStep s instanceId) instanceId
      = Except.ok (logoutStep s instanceId)
    ∧ (logoutStep s instanceId).instances.get instanceId = none
    ∧ (logoutStep s instanceId).wsConnections.get instanceId = none
    ∧ (logoutStep s instanceId).reconnectTimers.get instanceId = none := by
  have hstep : logoutStep (logoutStep s instanceId) instanceId
      = logoutStep s instanceId := by
    simp [logoutStep, disconnectWebSocket, SMap.del_del]
  refine ⟨?_, hstep, ?_, ?_, ?_, ?_⟩
  · simp [disconnectWebSocket, SMap.del_del]
  · rw [h]
    simp only [logoutCall]
    rw [hstep]
  · simp [logoutStep, disconnectWebSocket, SMap.get_del_self]
  · simp [logoutStep, disconnectWebSocket, SMap.get_del_self]
  · simp [logoutStep, disconnectWebSocket, SMap.get_del_self]

/-- C9, witness: logging out "acct1" a second time (RPC succeeding)
returns without error and leaves the state of the first logout in place. -/
theorem teardown_and_logout_idempotent_witness :
    logoutCall (Except.ok ()) (logoutStep stateConnecting "acct1") "acct1"
      = Except.ok (logoutStep stateConnecting "acct1") :=
  (teardown_and_logout_idempotent stateConnecting "acct1" (Except.ok ())
    rfl).2.2.1

/-- C10: lookups for an id the registry does not hold return sentinels and
never throw — `getStatus` yields "not_found", `getInstance`/`getClient`
yield undefined, and `getQRCode` yields a record with both fields
absent. (All four embeddings are total functions: nothing is thrown on any
input.) -/
theorem unknown_id_lookups (s : BridgeState) (instanceId : String)
    (h : s.instances.get instanceId = none) :
    getStatus s instanceId = "not_found"
    ∧ getInstance s instanceId = none
    ∧ getClient s instanceId = none
    ∧ getQRCode s instanceId = (none, none) := by
  refine ⟨?_, h, h, ?_⟩
  · simp [getStatus, h]
  · simp [getQRCode, h]

/-- C10, witness: the lookups evaluated on the empty registry. -/
theorem unknown_id_lookups_witness :
    getStatus initialState "ghost" = "not_found" :=
  (unknown_id_lookups initialState "ghost" rfl).1

end WABridge
